import Mathlib

/-!
Verification development for the Aurora subsurface-intelligence core.

Shallow embedding of the decision pipeline of the repository:
geological veto engine, commodity playbook, chemical likelihood service,
Bayesian fusion engine and probability collapse detector.  Numeric fields
of the JS source are modelled as exact rationals where the code only uses
field operations and comparisons, and as real numbers where the code uses
log / exp / sqrt / fractional powers.  JS `Math.random()` is modelled as an
explicit stream `ℕ → ℚ` consumed by the functions that call it.
-/

set_option maxHeartbeats 1000000
set_option maxRecDepth 4000

namespace Aurora

/-! ## Shared string helpers (JS `String.prototype.includes`) -/

/-- Sublist containment on character lists (JS substring search). -/
def hasSubstr (l sub : List Char) : Bool :=
  match l with
  | [] => sub.isEmpty
  | c :: rest => List.isPrefixOf sub (c :: rest) || hasSubstr rest sub

/-- JS `s.includes(sub)`. -/
def jsIncludes (s sub : String) : Bool :=
  hasSubstr s.data sub.data

/-! ## Age parsing (geological-veto-engine.ts `parseAge`)

JS: `age.match(/(\d+(?:\.\d+)?)\s*Ma/i)` and `parseFloat` of the capture,
with fallback 100 on no match.  The regex is modelled by a left-to-right
scan that at each position tries: one or more digits, an optional dot with
one or more digits, any whitespace, then `M`/`m` followed by `A`/`a`. -/

/-- Decimal value of a digit run. -/
def natOfDigits (l : List Char) : ℕ :=
  l.foldl (fun n c => 10 * n + (c.toNat - '0'.toNat)) 0

/-- Try to match the age pattern starting exactly at the head of `l`. -/
def matchAgeAt (l : List Char) : Option ℚ :=
  let sp := l.span Char.isDigit
  let d1 := sp.1
  if d1 = [] then none
  else
    let fr :=
      match sp.2 with
      | '.' :: rest =>
        let sp2 := rest.span Char.isDigit
        if sp2.1 = [] then (([] : List Char), sp.2) else (sp2.1, sp2.2)
      | _ => (([] : List Char), sp.2)
    let r4 := fr.2.dropWhile Char.isWhitespace
    match r4 with
    | c1 :: c2 :: _ =>
      if (c1 = 'M' ∨ c1 = 'm') ∧ (c2 = 'A' ∨ c2 = 'a') then
        some ((natOfDigits d1 : ℚ) + (natOfDigits fr.1 : ℚ) / ((10 : ℚ) ^ fr.1.length))
      else none
    | _ => none

/-- Leftmost match wins, as for a JS regex search. -/
def findAgeMatch : List Char → Option ℚ
  | [] => none
  | c :: rest =>
    match matchAgeAt (c :: rest) with
    | some v => some v
    | none => findAgeMatch rest

/-- `parseAge` of geological-veto-engine.ts (and identically of the
copper-porphyry playbook): parse "N Ma", defaulting to 100. -/
def parseAge (age : String) : ℚ :=
  (findAgeMatch age.data).getD 100

/-! ## Geological veto engine: data model (geological-veto-engine.ts) -/

/-- `Target.geological_context.stratigraphy`. -/
structure Stratigraphy where
  reservoir_unit : Option String
  seal_unit : Option String
  facies : String
  thickness : ℚ
  deriving DecidableEq, Repr

/-- `Target.geological_context.structure` (the source field is named
`structure`, a Lean keyword, hence `structure_info` below). -/
structure StructureContext where
  trap_type : Option String
  closure : ℚ
  fault_seal : Option Bool
  basin_seal : Option Bool
  deriving DecidableEq, Repr

/-- `Target.geological_context.preservation`. -/
structure Preservation where
  uplift_level : String
  erosion_level : String
  metamorphic_grade : String
  weathering : String
  deriving DecidableEq, Repr

/-- `Target.geological_context`. -/
structure GeologicalContext where
  tectonic_setting : String
  age : String
  stratigraphy : Stratigraphy
  structure_info : StructureContext
  preservation : Preservation
  deriving DecidableEq, Repr

/-- `Target.location`. -/
structure Location where
  longitude : ℚ
  latitude : ℚ
  deriving DecidableEq, Repr

/-- `Target.evidence`: the four per-type raw evidence collections.  Their
element type (`any[]` in the source) is opaque to the veto engine, so the
payloads are modelled as sizes-only lists. -/
structure TargetEvidence where
  chemical : List Unit
  structural : List Unit
  physical : List Unit
  seismic : List Unit
  deriving DecidableEq, Repr

/-- `Target` of geological-veto-engine.ts. -/
structure Target where
  id : String
  commodity : String
  location : Location
  geological_context : GeologicalContext
  evidence : TargetEvidence
  deriving DecidableEq, Repr

/-- `VetoConditionResult`.  The condition checks in the source return this
shape without an `evidence` field; the evaluator fills it in, so the model
defaults it to `[]`. -/
structure VetoConditionResult where
  passed : Bool
  details : String
  certainty : ℚ
  evidence : List String := []
  recommendation : Option String := none
  deriving DecidableEq, Repr

/-- `CategoryResult`.  `failure_reason` is only present on failure in the
source objects, hence `Option`. -/
structure CategoryResult where
  passed : Bool
  failed_condition : Option String := none
  failure_reason : Option String := none
  all_results : List VetoConditionResult
  deriving DecidableEq, Repr

/-- `VetoResult` of geological-veto-engine.ts (the `timestamp : Date` field
carries no decision content and is omitted). -/
structure VetoResult where
  passed : Bool
  probability : ℚ
  failure_category : Option String := none
  failure_condition : Option String := none
  failure_reason : Option String := none
  audit_trail : List CategoryResult
  total_checks : ℕ
  passed_checks : ℕ
  failed_checks : ℕ
  deriving DecidableEq, Repr

/-! ## Veto condition checks (geological-veto-engine.ts) -/

/-- Commodity-specific reservoir facies table of `checkNoReservoirUnit`. -/
def reservoirFacies (c : String) : List String :=
  if c = "copper_porphyry" then ["intrusive", "volcanic", "plutonic"]
  else if c = "lithium_brine" then ["evaporite", "lacustrine", "playa"]
  else if c = "hydrocarbon_onshore" then ["sandstone", "limestone", "dolomite"]
  else if c = "hydrocarbon_offshore" then ["sandstone", "limestone", "chalk"]
  else []

/-- `checkNoReservoirUnit`.  JS `!!reservoir_unit` is modelled as
`Option.isSome` (the empty-string edge case of JS truthiness is not
exercised by any claim). -/
def checkNoReservoirUnit (t : Target) : VetoConditionResult :=
  let hasReservoir := t.geological_context.stratigraphy.reservoir_unit.isSome
  let facies := t.geological_context.stratigraphy.facies
  let compatibleFacies := reservoirFacies t.commodity
  let faciesCompatible := compatibleFacies.any (fun f => jsIncludes facies.toLower f)
  let passed := hasReservoir && faciesCompatible
  { passed := passed
    details :=
      if passed then
        "Viable reservoir unit identified: " ++
          (t.geological_context.stratigraphy.reservoir_unit.getD "undefined")
      else
        "No viable reservoir unit for " ++ t.commodity ++ ". Facies: " ++ facies
    certainty := 0.9 }

/-- Incompatible-facies table of `checkWrongFacies`. -/
def incompatibleFacies (c : String) : List String :=
  if c = "copper_porphyry" then ["deep_marine", "pelagic", "aeolian"]
  else if c = "lithium_brine" then ["volcanic", "metamorphic", "igneous"]
  else if c = "hydrocarbon_onshore" then ["volcanic", "metamorphic", "high_energy_clastic"]
  else if c = "hydrocarbon_offshore" then ["continental", "fluvial", "aeolian"]
  else []

/-- `checkWrongFacies`. -/
def checkWrongFacies (t : Target) : VetoConditionResult :=
  let facies := t.geological_context.stratigraphy.facies
  let incompatible := incompatibleFacies t.commodity
  let isIncompatible := incompatible.any (fun f => jsIncludes facies.toLower f)
  { passed := !isIncompatible
    details :=
      if isIncompatible then "Facies " ++ facies ++ " incompatible with " ++ t.commodity
      else "Facies " ++ facies ++ " compatible with " ++ t.commodity
    certainty := 0.8 }

/-- `checkMissingSeal`. -/
def checkMissingSeal (t : Target) : VetoConditionResult :=
  let hasSeal := t.geological_context.stratigraphy.seal_unit.isSome
  let noSealRequired := ["copper_porphyry"]
  let sealRequired := !(noSealRequired.contains t.commodity)
  let passed := !sealRequired || hasSeal
  { passed := passed
    details :=
      if passed then
        if sealRequired then
          "Effective seal present: " ++ (t.geological_context.stratigraphy.seal_unit.getD "undefined")
        else "Seal not required for " ++ t.commodity
      else "No seal unit present for " ++ t.commodity
    certainty := 0.85 }

/-- `checkErodedSequence`. -/
def checkErodedSequence (t : Target) : VetoConditionResult :=
  let erosionLevel := t.geological_context.preservation.erosion_level
  let thickness := t.geological_context.stratigraphy.thickness
  let severelyEroded := ["severe", "complete", "extreme"].contains erosionLevel.toLower
  let insufficientThickness := decide (thickness < 50)
  let passed := !severelyEroded && !insufficientThickness
  { passed := passed
    details :=
      if passed then
        "Target sequence preserved. Thickness: " ++ toString thickness ++ "m, Erosion: " ++ erosionLevel
      else
        "Target sequence eroded. Erosion: " ++ erosionLevel ++ ", Remaining thickness: " ++
          toString thickness ++ "m"
    certainty := 0.9 }

/-- Commodity age-range table of `checkTimingMismatch`. -/
def ageRanges (c : String) : ℚ × ℚ :=
  if c = "copper_porphyry" then (1, 100)
  else if c = "lithium_brine" then (0, 10)
  else if c = "hydrocarbon_onshore" then (50, 500)
  else if c = "hydrocarbon_offshore" then (10, 200)
  else (0, 1000)

/-- `checkTimingMismatch`. -/
def checkTimingMismatch (t : Target) : VetoConditionResult :=
  let ageMa := parseAge t.geological_context.age
  let range := ageRanges t.commodity
  let timingCompatible := decide (range.1 ≤ ageMa) && decide (ageMa ≤ range.2)
  { passed := timingCompatible
    details :=
      if timingCompatible then
        "Age " ++ toString ageMa ++ " Ma compatible with " ++ t.commodity
      else
        "Age " ++ toString ageMa ++ " Ma incompatible with " ++ t.commodity ++
          " (requires " ++ toString range.1 ++ "-" ++ toString range.2 ++ " Ma)"
    certainty := 0.8 }

/-- `checkChargeAfterTrap`. -/
def checkChargeAfterTrap (t : Target) : VetoConditionResult :=
  let structuralAge := parseAge t.geological_context.age
  let mineralizationAge := structuralAge - 5
  let chargeAfterTrap := decide (structuralAge < mineralizationAge)
  { passed := !chargeAfterTrap
    details :=
      if chargeAfterTrap then "Mineralization occurred after trap formation"
      else "Mineralization timing compatible with trap formation"
    certainty := 0.7 }

/-- `checkAgeIncompatible` delegates to `checkTimingMismatch`. -/
def checkAgeIncompatible (t : Target) : VetoConditionResult :=
  checkTimingMismatch t

/-- `checkBasinUnsealed`. -/
def checkBasinUnsealed (t : Target) : VetoConditionResult :=
  let basinSeal := t.geological_context.structure_info.basin_seal
  let closure := t.geological_context.structure_info.closure
  let passed := !(basinSeal = some false : Bool) && decide (10 < closure)
  { passed := passed
    details :=
      if passed then "Basin sealed with " ++ toString closure ++ "m closure"
      else "Basin unsealed or insufficient closure (" ++ toString closure ++ "m)"
    certainty := 0.8 }

/-- `checkFaultBreach`. -/
def checkFaultBreach (t : Target) : VetoConditionResult :=
  let faultSeal := t.geological_context.structure_info.fault_seal
  let passed := !(faultSeal = some false : Bool)
  { passed := passed
    details :=
      if passed then "Faults are sealed or absent" else "Faults have breached the trap"
    certainty := 0.7 }

/-- `checkNoClosure`. -/
def checkNoClosure (t : Target) : VetoConditionResult :=
  let closure := t.geological_context.structure_info.closure
  let trapType := t.geological_context.structure_info.trap_type
  let hasStructuralClosure := decide (5 < closure)
  let hasStratigraphicTrap :=
    ["stratigraphic", "combination", "unconformity"].contains (trapType.getD "")
  let passed := hasStructuralClosure || hasStratigraphicTrap
  { passed := passed
    details :=
      if passed then
        "Trap closure present: " ++ toString closure ++ "m (" ++ trapType.getD "undefined" ++ ")"
      else "No viable trap closure identified"
    certainty := 0.8 }

/-- `checkTrapDestroyed`. -/
def checkTrapDestroyed (t : Target) : VetoConditionResult :=
  let tectonicSetting := t.geological_context.tectonic_setting
  let destructiveSettings := ["collisional", "orogenic", "compressional"]
  let destroyed := destructiveSettings.contains tectonicSetting.toLower
  { passed := !destroyed
    details :=
      if destroyed then "Trap likely destroyed by " ++ tectonicSetting ++ " tectonics"
      else "Trap preserved in current tectonic setting"
    certainty := 0.7 }

/-- `checkUpliftedEroded`. -/
def checkUpliftedEroded (t : Target) : VetoConditionResult :=
  let upliftLevel := t.geological_context.preservation.uplift_level
  let erosionLevel := t.geological_context.preservation.erosion_level
  let severelyUplifted := ["high", "extreme", "major"].contains upliftLevel.toLower
  let severelyEroded := ["severe", "complete", "extreme"].contains erosionLevel.toLower
  let passed := !severelyUplifted && !severelyEroded
  { passed := passed
    details :=
      if passed then
        "Target preserved. Uplift: " ++ upliftLevel ++ ", Erosion: " ++ erosionLevel
      else
        "Target destroyed by uplift/erosion. Uplift: " ++ upliftLevel ++ ", Erosion: " ++ erosionLevel
    certainty := 0.9 }

/-- `checkMetamorphosed`. -/
def checkMetamorphosed (t : Target) : VetoConditionResult :=
  let metamorphicGrade := t.geological_context.preservation.metamorphic_grade
  let highGrade :=
    ["amphibolite", "granulite", "eclogite", "high-grade"].contains metamorphicGrade.toLower
  { passed := !highGrade
    details :=
      if highGrade then "Target over-metamorphosed: " ++ metamorphicGrade
      else "Metamorphic grade suitable: " ++ metamorphicGrade
    certainty := 0.8 }

/-- `checkWeatheredDestroyed`. -/
def checkWeatheredDestroyed (t : Target) : VetoConditionResult :=
  let weathering := t.geological_context.preservation.weathering
  let severeWeathering := ["severe", "intense", "extreme", "deep"].contains weathering.toLower
  { passed := !severeWeathering
    details :=
      if severeWeathering then "Target destroyed by weathering: " ++ weathering
      else "Weathering level acceptable: " ++ weathering
    certainty := 0.7 }

/-- `checkThermallyOvermature` (the tectonic setting is compared without
lowercasing here, exactly as in the source). -/
def checkThermallyOvermature (t : Target) : VetoConditionResult :=
  let age := parseAge t.geological_context.age
  let tectonicSetting := t.geological_context.tectonic_setting
  let thermallyUnsuitable :=
    (decide (age < 10) && ["arc", "rift"].contains tectonicSetting) ||
    (decide (500 < age) && ["collisional", "orogenic"].contains tectonicSetting)
  { passed := !thermallyUnsuitable
    details :=
      if thermallyUnsuitable then "Target thermally overmature or immature"
      else "Thermal maturity suitable for preservation"
    certainty := 0.7 }

/-- `getEvidenceForCondition`: a fixed mock evidence list irrespective of
condition name and target. -/
def getEvidenceForCondition (_conditionName : String) (_t : Target) : List String :=
  ["regional geological maps", "stratigraphic columns", "structural cross-sections",
   "geochronology data", "thermal history models"]

/-! ## Veto taxonomy and registry -/

/-- `VetoCondition`: a named registry record holding a pure check. -/
structure VetoCondition where
  name : String
  category : String
  description : String
  check : Target → VetoConditionResult
  severity : String
  confidence_required : ℚ

/-- `VETO_TAXONOMY`: the category-to-condition-name table, in declared
order.  (Four of the listed names have no registry record; the evaluator
silently skips them, as the source `find` does.) -/
def vetoTaxonomy : List (String × List String) :=
  [("stratigraphic",
    ["no_reservoir_unit", "wrong_facies", "missing_seal", "eroded_sequence",
     "incompatible_depositional_environment"]),
   ("temporal",
    ["timing_mismatch", "charge_after_trap", "breach_before_preservation",
     "age_incompatible_with_commodity"]),
   ("structural",
    ["basin_unsealed", "fault_breach", "no_closure", "incompatible_structural_style",
     "trap_destroyed"]),
   ("preservation",
    ["uplifted_eroded", "metamorphosed", "weathered_destroyed", "exhumed",
     "thermally_overmature"])]

/-- The `vetoConditions` registry, in declared order. -/
def vetoConditions : List VetoCondition :=
  [{ name := "no_reservoir_unit", category := "stratigraphic",
     description := "No viable reservoir unit present in stratigraphic column",
     check := checkNoReservoirUnit, severity := "critical", confidence_required := 0.8 },
   { name := "wrong_facies", category := "stratigraphic",
     description := "Depositional facies incompatible with commodity",
     check := checkWrongFacies, severity := "major", confidence_required := 0.7 },
   { name := "missing_seal", category := "stratigraphic",
     description := "No effective seal unit present",
     check := checkMissingSeal, severity := "critical", confidence_required := 0.8 },
   { name := "eroded_sequence", category := "stratigraphic",
     description := "Target sequence eroded away",
     check := checkErodedSequence, severity := "critical", confidence_required := 0.9 },
   { name := "timing_mismatch", category := "temporal",
     description := "Timing of mineralization incompatible with trap formation",
     check := checkTimingMismatch, severity := "major", confidence_required := 0.7 },
   { name := "charge_after_trap", category := "temporal",
     description := "Mineralization occurred after trap was breached",
     check := checkChargeAfterTrap, severity := "critical", confidence_required := 0.8 },
   { name := "age_incompatible_with_commodity", category := "temporal",
     description := "Geological age incompatible with commodity formation",
     check := checkAgeIncompatible, severity := "critical", confidence_required := 0.8 },
   { name := "basin_unsealed", category := "structural",
     description := "Structural basin is not sealed",
     check := checkBasinUnsealed, severity := "critical", confidence_required := 0.8 },
   { name := "fault_breach", category := "structural",
     description := "Faults have breached the trap",
     check := checkFaultBreach, severity := "critical", confidence_required := 0.7 },
   { name := "no_closure", category := "structural",
     description := "No structural closure present",
     check := checkNoClosure, severity := "critical", confidence_required := 0.8 },
   { name := "trap_destroyed", category := "structural",
     description := "Trap has been destroyed by deformation",
     check := checkTrapDestroyed, severity := "critical", confidence_required := 0.8 },
   { name := "uplifted_eroded", category := "preservation",
     description := "Target has been uplifted and eroded",
     check := checkUpliftedEroded, severity := "critical", confidence_required := 0.9 },
   { name := "metamorphosed", category := "preservation",
     description := "Target has been metamorphosed beyond preservation",
     check := checkMetamorphosed, severity := "critical", confidence_required := 0.8 },
   { name := "weathered_destroyed", category := "preservation",
     description := "Target destroyed by weathering processes",
     check := checkWeatheredDestroyed, severity := "major", confidence_required := 0.7 },
   { name := "thermally_overmature", category := "preservation",
     description := "Target thermally overmature for preservation",
     check := checkThermallyOvermature, severity := "critical", confidence_required := 0.8 }]

/-! ## Veto evaluation (`evaluateCategory` / `evaluateVeto`) -/

/-- Inner loop of `evaluateCategory`: iterate condition names in order,
accumulate per-condition results, and stop the whole category at the first
failing check whose certainty reaches its required confidence. -/
def evaluateConditions (t : Target) : List String → CategoryResult
  | [] => { passed := true, all_results := [] }
  | name :: rest =>
    match vetoConditions.find? (fun c => c.name == name) with
    | none => evaluateConditions t rest
    | some c =>
      let r0 := c.check t
      let r := { r0 with evidence := getEvidenceForCondition name t }
      if r0.passed = false ∧ c.confidence_required ≤ r0.certainty then
        { passed := false, failed_condition := some name,
          failure_reason := some r0.details, all_results := [r] }
      else
        let sub := evaluateConditions t rest
        { sub with all_results := r :: sub.all_results }

/-- `evaluateCategory` (the category tag only selects the name list). -/
def evaluateCategory (_category : String) (conditions : List String) (t : Target) :
    CategoryResult :=
  evaluateConditions t conditions

/-- Outer loop of `evaluateVeto`: iterate categories in declared order,
extend the audit trail and counters, and return immediately when a
category fails. -/
def evalVetoLoop (t : Target) (audit : List CategoryResult) (tot pass fail : ℕ) :
    List (String × List String) → VetoResult
  | [] =>
    { passed := true, probability := 1, audit_trail := audit,
      total_checks := tot, passed_checks := pass, failed_checks := fail }
  | (cat, names) :: rest =>
    let cr := evaluateCategory cat names t
    let audit' := audit ++ [cr]
    let tot' := tot + cr.all_results.length
    let pass' := pass + (cr.all_results.filter (fun r => r.passed)).length
    let fail' := fail + (cr.all_results.filter (fun r => !r.passed)).length
    if cr.passed = false then
      { passed := false, probability := 0, failure_category := some cat,
        failure_condition := cr.failed_condition, failure_reason := cr.failure_reason,
        audit_trail := audit', total_checks := tot', passed_checks := pass',
        failed_checks := fail' }
    else
      evalVetoLoop t audit' tot' pass' fail' rest

/-- `evaluateVeto`: evaluate the full taxonomy against a target. -/
def evaluateVeto (t : Target) : VetoResult :=
  evalVetoLoop t [] 0 0 0 vetoTaxonomy

/-- `checkSpecificCondition`: look a single named condition up in the
registry; unknown names raise (modelled by `Except.error`). -/
def checkSpecificCondition (conditionName : String) (t : Target) :
    Except String VetoConditionResult :=
  match vetoConditions.find? (fun c => c.name == conditionName) with
  | none => Except.error ("Veto condition " ++ conditionName ++ " not found")
  | some c =>
    Except.ok { c.check t with evidence := getEvidenceForCondition conditionName t }

/-! ## Commodity playbook (unnamed part_000) -/

/-- `SupportiveEvidence`. -/
structure SupportiveEvidence where
  evidence_type : String
  strength : ℚ
  description : String
  data_sources : List String
  deriving DecidableEq, Repr

/-- `MandatoryResult` (the free-form `condition_details` audit payload is
not consumed by the assessed operations and is omitted). -/
structure MandatoryResult where
  all_passed : Bool
  failed_condition : Option String := none
  failure_details : Option String := none
  triggers_veto : Bool
  deriving DecidableEq, Repr

/-- A triggered kill factor entry. -/
structure KillFactorEntry where
  factor : String
  description : String
  certainty : ℚ
  deriving DecidableEq, Repr

/-- `KillFactorResult`. -/
structure KillFactorResult where
  killed : Bool
  kill_factors : List KillFactorEntry
  requires_veto : Bool
  deriving DecidableEq, Repr

/-- The playbook's qualitative overall assessment. -/
inductive Assessment where
  | favorable
  | marginal
  | unfavorable
  deriving DecidableEq, Repr

/-- `CommodityPlaybook.evaluateSupportiveEvidence`: score each registered
supportive-evidence item, retain those with strength above 0.1, and sort
descending by strength (JS `sort((a, b) => b.strength - a.strength)`). -/
def evaluateSupportiveEvidence {α : Type} (scorers : List (String × (α → SupportiveEvidence)))
    (evidence : α) : List SupportiveEvidence :=
  (((scorers.map (fun p => p.2 evidence)).filter (fun r => decide (0.1 < r.strength))).mergeSort
    (fun a b => decide (b.strength ≤ a.strength)))

/-- `CommodityPlaybook.generateOverallAssessment`. -/
def generateOverallAssessment (mandatory : MandatoryResult) (killFactors : KillFactorResult)
    (supportive : List SupportiveEvidence) : Assessment :=
  if mandatory.all_passed = false ∨ killFactors.killed = true then .unfavorable
  else
    let totalSupportiveStrength := supportive.foldl (fun sum s => sum + s.strength) (0 : ℚ)
    let strongSupportiveCount := (supportive.filter (fun s => decide (0.7 < s.strength))).length
    if 2 < totalSupportiveStrength ∧ 2 ≤ strongSupportiveCount then .favorable
    else if 1 < totalSupportiveStrength ∧ 1 ≤ strongSupportiveCount then .marginal
    else .unfavorable

/-- `CopperPorphyryPlaybook.checkGeochemicalAnomaly`: a mock scorer that
draws twice from `Math.random()` (modelled as the stream `rand`) and
ignores its evidence argument, exactly as the source does. -/
def checkGeochemicalAnomaly {α : Type} (rand : ℕ → ℚ) (_evidence : α) : SupportiveEvidence :=
  let hasCopperAnomaly := decide (0.5 < rand 0)
  let hasPathfinderElements := decide (0.6 < rand 1)
  let strength := (if hasCopperAnomaly then (0.6 : ℚ) else 0) +
    (if hasPathfinderElements then (0.4 : ℚ) else 0)
  { evidence_type := "geochemical_anomaly"
    strength := strength
    description := "Geochemical anomaly: Cu=" ++ toString hasCopperAnomaly ++
      ", pathfinders=" ++ toString hasPathfinderElements
    data_sources := ["soil sampling", "rock chip sampling", "stream sediments"] }

/-! ## Chemical likelihood service (services/chemical-likelihood.ts) -/

/-- `MineralDetection` (the per-detection `band_depths` map and the
uncertainty parameters are carried opaquely as key-value lists). -/
structure MineralDetection where
  mineral_id : String
  abundance : ℚ
  confidence : ℚ
  spectral_fit_rmse : ℚ
  band_depths : List (String × ℚ) := []
  uncertainty_type : String := "gaussian"
  deriving DecidableEq, Repr

/-- `DIAGNOSTIC_MINERALS` table. -/
def DIAGNOSTIC_MINERALS (c : String) : List String :=
  if c = "copper_porphyry" then
    ["chrysocolla", "malachite", "azurite", "bornite", "chalcopyrite",
     "K-feldspar", "biotite", "magnetite", "sericite", "pyrite"]
  else if c = "lithium_brine" then
    ["lithium-bearing_clays", "hectorite", "smectite", "illite",
     "halite", "gypsum", "borates", "evaporite_minerals"]
  else if c = "hydrocarbon_onshore" then
    ["hydrocarbon_seepage", "oil_stains", "bitumen", "gilsonite",
     "hydroxyl-bearing_minerals", "clay_minerals"]
  else if c = "hydrocarbon_offshore" then
    ["hydrocarbon_seepage", "oil_stains", "gas_seeps",
     "hydrocarbon_induced_minerals", "authigenic_carbonates"]
  else []

/-- `ChemicalLikelihoodService.computeMineralLikelihood`: product of
`max(0.1, abundance*confidence)` over diagnostic detections, scaled by
`1 + detected/expected` and capped at 5.0; 0.1 with no detections. -/
def computeMineralLikelihood (mineralDetections : List MineralDetection) (commodity : String) :
    ℚ :=
  let diagnosticMinerals := DIAGNOSTIC_MINERALS commodity
  if mineralDetections = [] then 0.1
  else
    let likelihoodProduct := mineralDetections.foldl
      (fun acc d =>
        if diagnosticMinerals.contains d.mineral_id then
          acc * max 0.1 (d.abundance * d.confidence)
        else acc) 1
    let expectedMinerals := diagnosticMinerals.length
    let detectedMinerals :=
      (mineralDetections.filter (fun d => diagnosticMinerals.contains d.mineral_id)).length
    let coverageFactor := (detectedMinerals : ℚ) / (expectedMinerals : ℚ)
    min 5 (likelihoodProduct * (1 + coverageFactor))

/-- `SpectralUnmixingResult`. -/
structure SpectralUnmixingResult where
  endmember_abundances : List (String × ℚ)
  endmember_spectra : List (String × List ℚ)
  rmse : ℚ
  uncertainty : ℚ
  method : String
  confidence : ℚ
  deriving DecidableEq, Repr

/-- `ChemicalLikelihoodService.applyNFINDR`: a mock unmixer that draws one
`Math.random()` per endmember (abundance) plus one for the RMSE; the
spectra argument is unused, as in the source. -/
def applyNFINDR (rand : ℕ → ℚ) (_spectra : List ℚ) (endmembers : List (String × List ℚ)) :
    SpectralUnmixingResult :=
  let raw := endmembers.enum.map (fun p => (p.2.1, rand p.1 * 0.5))
  let totalAbundance := (raw.map (fun p => p.2)).foldl (· + ·) 0
  let abundances := raw.map (fun p => (p.1, p.2 / totalAbundance))
  { endmember_abundances := abundances
    endmember_spectra := endmembers
    rmse := 0.02 + rand endmembers.length * 0.03
    uncertainty := 0.05
    method := "NFINDR"
    confidence := 0.8 }

/-- The spectral quality report of `assessSpectralQuality`. -/
structure SpectralQuality where
  signal_to_noise : ℚ
  atmospheric_correction : ℚ
  cloud_cover : ℚ
  overall_quality : String
  deriving DecidableEq, Repr

/-- `ChemicalLikelihoodService.assessSpectralQuality`: a mock assessment
drawing three `Math.random()` values; the data argument is unused. -/
def assessSpectralQuality {α : Type} (rand : ℕ → ℚ) (_hyperspectralData : List α) :
    SpectralQuality :=
  { signal_to_noise := 50 + rand 0 * 100
    atmospheric_correction := 0.8 + rand 1 * 0.2
    cloud_cover := rand 2 * 0.3
    overall_quality := "good" }

/-! ## Bayesian fusion engine (bayesian-engine.ts)

The engine's arithmetic is modelled over ℝ.  JS `Math.log` maps 0 to
`-Infinity` and `Math.exp(-Infinity) = 0`; to keep the log-space fusion
faithful at zero means, logarithms live in `EReal` with `⊥` playing the
role of `-Infinity` (`jsLog` / `jsExp` below).  Negative arguments to
`Math.log` (JS `NaN`) are outside every stated property and are also sent
to `⊥`. -/

/-- The posterior confidence ladder. -/
inductive ConfidenceClass where
  | NOISE
  | RECON
  | PROSPECT
  | PRIORITY
  | DRILL_JUSTIFIED
  deriving DecidableEq, Repr

/-- `PriorDistribution` of bayesian-engine.ts. -/
structure PriorDistribution where
  mean : ℝ
  variance : ℝ
  confidence_interval : ℝ × ℝ
  tectonic_setting : ℝ
  age_timing : ℝ
  stratigraphic : ℝ
  historical_analogs : ℝ

/-- `LikelihoodDistribution` of bayesian-engine.ts. -/
structure LikelihoodDistribution where
  mean : ℝ
  variance : ℝ
  confidence_interval : ℝ × ℝ
  evidence_type : String
  adjustment_applied : Option Bool := none
  correlation_penalty : Option ℝ := none

/-- `VetoResult` as consumed by the fusion engine (its `audit_trail : any[]`
and `timestamp : Date` carry no decision content and are omitted). -/
structure FusionVetoResult where
  passed : Bool
  probability : ℝ
  failure_category : Option String := none
  failure_condition : Option String := none
  failure_reason : Option String := none

/-- `PosteriorDistribution` of bayesian-engine.ts. -/
structure PosteriorDistribution where
  mean : ℝ
  variance : ℝ
  confidence_class : ConfidenceClass
  uncertainty_bounds : ℝ × ℝ
  likelihood_contributions : List (String × ℝ)
  veto_reason : Option String := none
  normalization_constant : ℝ

/-- JS `Math.log` on the nonnegative reals, valued in `EReal`
(`log 0 = -Infinity`). -/
noncomputable def jsLog (x : ℝ) : EReal :=
  if x ≤ 0 then ⊥ else ((Real.log x : ℝ) : EReal)

/-- JS `Math.exp` on extended reals (`exp (-Infinity) = 0`; `⊤` never
arises from fusing finite inputs). -/
noncomputable def jsExp (x : EReal) : ℝ :=
  if x = ⊥ then 0 else Real.exp x.toReal

/-- The fixed evidence-type correlation table (`correlationMap`). -/
def correlationMap (t1 t2 : String) : Option ℝ :=
  if t1 = "chemical" then
    if t2 = "structural" then some 0.3
    else if t2 = "physical" then some 0.5
    else if t2 = "surface" then some 0.7
    else none
  else if t1 = "structural" then
    if t2 = "chemical" then some 0.3
    else if t2 = "physical" then some 0.4
    else if t2 = "surface" then some 0.6
    else none
  else if t1 = "physical" then
    if t2 = "chemical" then some 0.5
    else if t2 = "structural" then some 0.4
    else if t2 = "surface" then some 0.3
    else none
  else if t1 = "surface" then
    if t2 = "chemical" then some 0.7
    else if t2 = "structural" then some 0.6
    else if t2 = "physical" then some 0.3
    else none
  else none

/-- `computeEvidenceCorrelationMatrix`: 1.0 on the diagonal, table value
off it, defaulting to 0.2 (the JS `|| 0.2`; every table value is nonzero,
so `Option.getD` is an exact model of the falsy-default). -/
noncomputable def computeEvidenceCorrelationMatrix (evidenceTypes : List String) :
    List (List ℝ) :=
  let n := evidenceTypes.length
  (List.range n).map (fun i =>
    (List.range n).map (fun j =>
      if i = j then (1 : ℝ)
      else (correlationMap (evidenceTypes.getD i "") (evidenceTypes.getD j "")).getD 0.2))

/-- JS `Math.max(...)` over a list (rows are always nonempty where used). -/
def listMax : List ℝ → ℝ
  | [] => 0
  | x :: xs => xs.foldl max x

/-- `applyIndependenceCorrection`: penalise a likelihood whose
max-of-|row|-minus-1 exceeds the 0.7 correlation threshold. -/
noncomputable def applyIndependenceCorrection
    (likelihoods : List (String × LikelihoodDistribution))
    (correlationMatrix : List (List ℝ)) : List (String × LikelihoodDistribution) :=
  likelihoods.enum.map (fun p =>
    let i := p.1
    let name := p.2.1
    let originalLikelihood := p.2.2
    let maxCorrelation := listMax ((correlationMatrix.getD i []).map (fun v => |v|)) - 1.0
    if 0.7 < maxCorrelation then
      let penaltyFactor := 1.0 / (1.0 + maxCorrelation)
      (name,
       { originalLikelihood with
         mean := originalLikelihood.mean ^ penaltyFactor
         variance := originalLikelihood.variance * penaltyFactor
         adjustment_applied := some true
         correlation_penalty := some penaltyFactor })
    else (name, originalLikelihood))

/-- `propagateProductUncertainty`. -/
def propagateProductUncertainty (var1 var2 : ℝ) : ℝ :=
  var1 * var2 + var1 + var2

/-- `computeNormalizationConstant`: the prior-times-likelihood-means
product floored at 0.001. -/
def computeNormalizationConstant (prior : PriorDistribution)
    (likelihoods : List (String × LikelihoodDistribution)) : ℝ :=
  max (likelihoods.foldl (fun z p => z * p.2.mean) prior.mean) 0.001

/-- `classifyConfidence` (real-number convention `x / 0 = 0` stands in for
the JS infinite signal-to-noise ratio at zero variance; no stated property
depends on the classification at that edge). -/
noncomputable def classifyConfidence (mean variance : ℝ) : ConfidenceClass :=
  let uncertainty := Real.sqrt variance
  let signalToNoise := mean / uncertainty
  if mean < 0.05 ∨ signalToNoise < 1 then .NOISE
  else if mean < 0.15 ∨ signalToNoise < 2 then .RECON
  else if mean < 0.35 ∨ signalToNoise < 3 then .PROSPECT
  else if mean < 0.65 ∨ signalToNoise < 4 then .PRIORITY
  else .DRILL_JUSTIFIED

/-- `getZScore` lookup with default 1.96. -/
noncomputable def getZScore (confidence : ℝ) : ℝ :=
  if confidence = 0.90 then 1.645
  else if confidence = 0.95 then 1.96
  else if confidence = 0.99 then 2.576
  else 1.96

/-- `computeCredibleInterval`: normal-approximation bounds clamped to
[0, 1]. -/
noncomputable def computeCredibleInterval (mean variance confidence : ℝ) : ℝ × ℝ :=
  let stdDev := Real.sqrt variance
  let zScore := getZScore confidence
  (max 0 (mean - zScore * stdDev), min 1 (mean + zScore * stdDev))

/-- `computePosteriorWithUncertainty`: the core fusion operation.  The
vetoed branch returns the zero posterior without touching the prior or
the likelihoods; otherwise the independence-corrected likelihoods are
fused in log space, normalized by Z, classified, and bounded. -/
noncomputable def computePosteriorWithUncertainty (prior : PriorDistribution)
    (likelihoods : List (String × LikelihoodDistribution))
    (vetoResult : FusionVetoResult) : PosteriorDistribution :=
  if vetoResult.passed = false then
    { mean := 0.0, variance := 0.0, confidence_class := .NOISE,
      uncertainty_bounds := (0.0, 0.0), likelihood_contributions := [],
      veto_reason := vetoResult.failure_reason, normalization_constant := 0.0 }
  else
    let correlationMatrix := computeEvidenceCorrelationMatrix (likelihoods.map (fun p => p.1))
    let correctedLikelihoods := applyIndependenceCorrection likelihoods correlationMatrix
    let logPosteriorMean :=
      correctedLikelihoods.foldl (fun acc p => acc + jsLog p.2.mean) (jsLog prior.mean)
    let posteriorVariance :=
      correctedLikelihoods.foldl (fun acc p => propagateProductUncertainty acc p.2.variance)
        prior.variance
    let contributions := correctedLikelihoods.map (fun p => (p.1, p.2.mean))
    let posteriorMean := jsExp logPosteriorMean
    let Z := computeNormalizationConstant prior correctedLikelihoods
    let normalizedMean := posteriorMean / Z
    let confidenceClass := classifyConfidence normalizedMean posteriorVariance
    let uncertaintyBounds := computeCredibleInterval normalizedMean posteriorVariance 0.95
    { mean := normalizedMean, variance := posteriorVariance,
      confidence_class := confidenceClass, uncertainty_bounds := uncertaintyBounds,
      likelihood_contributions := contributions, normalization_constant := Z }

/-! ## Probability collapse detector (unnamed part_001), over ℝ -/

open scoped Classical in
/-- `computeConvergenceScore`: 1 minus the coefficient of variation of the
log-odds of the likelihoods clamped to the (0,1) domain.  Over ℝ every
produced log-odds value is finite, so the JS NaN/Infinity filter keeps
everything and is not modelled. -/
noncomputable def computeConvergenceScore (likelihoods : List ℝ) : ℝ :=
  if likelihoods.length < 2 then 0
  else
    let logOdds := likelihoods.map (fun L =>
      if L ≤ 0 ∨ 1 ≤ L then (0 : ℝ) else Real.log (L / (1 - L)))
    if logOdds.length = 0 then 0
    else
      let mean := logOdds.sum / logOdds.length
      let stdDev := Real.sqrt ((logOdds.map (fun lo => (lo - mean) ^ 2)).sum / logOdds.length)
      if 0 < stdDev ∧ mean ≠ 0 then max 0 (1 - |stdDev / mean|)
      else 1

open scoped Classical in
/-- `computeCorrelation`: the Pearson coefficient, 0 on degenerate input. -/
noncomputable def computeCorrelation (x y : List ℝ) : ℝ :=
  if x.length ≠ y.length ∨ x.length = 0 then 0
  else
    let n : ℝ := x.length
    let sumX := x.sum
    let sumY := y.sum
    let sumXY := ((x.zip y).map (fun p => p.1 * p.2)).sum
    let sumX2 := (x.map (fun v => v * v)).sum
    let sumY2 := (y.map (fun v => v * v)).sum
    let numerator := n * sumXY - sumX * sumY
    let denominator := Real.sqrt ((n * sumX2 - sumX * sumX) * (n * sumY2 - sumY * sumY))
    if denominator = 0 then 0 else numerator / denominator

open scoped Classical in
/-- `validateIndependence`: sorted-vector correlation below 0.8 in
absolute value. -/
noncomputable def validateIndependence (likelihoods uncertainties : List ℝ) : Prop :=
  if likelihoods.length < 2 then True
  else
    let sortedLikelihoods := likelihoods.mergeSort (fun a b => decide (a ≤ b))
    let sortedUncertainties := uncertainties.mergeSort (fun a b => decide (a ≤ b))
    |computeCorrelation sortedLikelihoods sortedUncertainties| < 0.8

open scoped Classical in
/-- `computeCollapseStrength`: filter the supportive likelihoods (> 1.0),
pair them with the first k uncertainties, scale each by its normalized
inverse-uncertainty weight, take the k-th root of the product, normalize
by the floored prior, and cap at 10. -/
noncomputable def computeCollapseStrength (prior : ℝ) (likelihoods uncertainties : List ℝ) :
    ℝ :=
  let supportiveLikelihoods := likelihoods.filter (fun L => decide (1 < L))
  let supportiveUncertainties := uncertainties.take supportiveLikelihoods.length
  if supportiveLikelihoods = [] then 0
  else
    let weights := supportiveUncertainties.map (fun u => 1.0 / (u + 0.001))
    let totalWeight := weights.sum
    let weightedLikelihoods :=
      (supportiveLikelihoods.zip weights).map (fun p => p.1 * (p.2 / totalWeight))
    let geometricMean :=
      (weightedLikelihoods.foldl (· * ·) 1) ^ ((1 : ℝ) / weightedLikelihoods.length)
    min 10 (geometricMean / max prior 0.001)

/-- The collapse confidence ladder. -/
inductive CollapseConfidenceLevel where
  | LOW
  | MEDIUM
  | HIGH
  | COLLAPSED
  deriving DecidableEq, Repr

open scoped Classical in
/-- `classifyConfidenceLevel`. -/
noncomputable def classifyConfidenceLevel (collapseDetected isSupportive
    significantReduction : Prop) (convergenceScore collapseStrength : ℝ) :
    CollapseConfidenceLevel :=
  if collapseDetected ∧ 5.0 < collapseStrength then .COLLAPSED
  else if collapseDetected ∧ 2.0 < collapseStrength then .HIGH
  else if isSupportive ∧ significantReduction ∧ 0.6 < convergenceScore then .MEDIUM
  else .LOW

/-- `CollapseResult` of the collapse detector. -/
structure CollapseResult where
  collapsed : Prop
  supportive_count : ℕ
  uncertainty_reduction : ℝ
  convergence_score : ℝ
  collapse_strength : ℝ
  confidence_level : CollapseConfidenceLevel

open scoped Classical in
/-- `detectCollapse`: the four collapse criteria plus strength and
confidence classification. -/
noncomputable def detectCollapse (prior : ℝ) (likelihoods uncertainties : List ℝ) :
    CollapseResult :=
  let supportiveCount := (likelihoods.filter (fun L => decide (1 < L))).length
  let isSupportive := 2 ≤ supportiveCount
  let totalUncertainty := uncertainties.foldl (fun prod u => prod * u) 1.0
  let avgUncertainty := totalUncertainty ^ ((1 : ℝ) / uncertainties.length)
  let uncertaintyReduction := 1.0 - avgUncertainty
  let significantReduction := 0.7 < uncertaintyReduction
  let convergenceScore := computeConvergenceScore likelihoods
  let independenceValid := validateIndependence likelihoods uncertainties
  let collapseDetected :=
    isSupportive ∧ significantReduction ∧ 0.8 < convergenceScore ∧ independenceValid
  let collapseStrength := computeCollapseStrength prior likelihoods uncertainties
  { collapsed := collapseDetected
    supportive_count := supportiveCount
    uncertainty_reduction := uncertaintyReduction
    convergence_score := convergenceScore
    collapse_strength := collapseStrength
    confidence_level := classifyConfidenceLevel collapseDetected isSupportive
      significantReduction convergenceScore collapseStrength }

/-- Modelled from the spec (sections 4.6 and 8) and claim C9's wording:
collapse strength as the weighted geometric mean of the supportive
likelihoods — each supportive likelihood raised to its normalized
inverse-uncertainty weight — divided by the floored prior and capped at
10, with strength 0 when no likelihood is supportive.  This is the
spec-side definition compared against `computeCollapseStrength`. -/
noncomputable def specCollapseStrength (prior : ℝ) (likelihoods uncertainties : List ℝ) :
    ℝ :=
  let supportive := likelihoods.filter (fun L => decide (1 < L))
  let supportiveUncertainties := uncertainties.take supportive.length
  if supportive = [] then 0
  else
    let weights := supportiveUncertainties.map (fun u => 1.0 / (u + 0.001))
    let totalWeight := weights.sum
    let weightedGeometricMean :=
      ((supportive.zip weights).map (fun p => p.1 ^ (p.2 / totalWeight))).prod
    min 10 (weightedGeometricMean / max prior 0.001)

/-! ## Helper lemmas: list folds, `listMax`, the correlation table -/

lemma le_foldl_max_init (a : ℝ) (xs : List ℝ) : a ≤ xs.foldl max a := by
  induction xs generalizing a with
  | nil => exact le_refl a
  | cons x xs ih => exact le_trans (le_max_left a x) (ih (max a x))

lemma le_foldl_max_mem {x : ℝ} {xs : List ℝ} (h : x ∈ xs) (a : ℝ) : x ≤ xs.foldl max a := by
  induction xs generalizing a with
  | nil => simp at h
  | cons y ys ih =>
    rcases List.mem_cons.mp h with rfl | hy
    · exact le_trans (le_max_right a x) (le_foldl_max_init _ ys)
    · exact ih hy (max a y)

lemma foldl_max_le {b : ℝ} (a : ℝ) (xs : List ℝ) (ha : a ≤ b) (h : ∀ x ∈ xs, x ≤ b) :
    xs.foldl max a ≤ b := by
  induction xs generalizing a with
  | nil => exact ha
  | cons y ys ih =>
    exact ih (max a y) (max_le ha (h y (List.mem_cons_self _ _))) (fun x hx => h x (List.mem_cons_of_mem _ hx))

lemma listMax_eq_one {l : List ℝ} (h1 : (1 : ℝ) ∈ l) (h2 : ∀ x ∈ l, x ≤ 1) :
    listMax l = 1 := by
  cases l with
  | nil => simp at h1
  | cons x xs =>
    unfold listMax
    refine le_antisymm (foldl_max_le x xs (h2 x (List.mem_cons_self _ _))
      (fun y hy => h2 y (List.mem_cons_of_mem _ hy))) ?_
    rcases List.mem_cons.mp h1 with h | h
    · rw [← h]; exact le_foldl_max_init _ xs
    · exact le_foldl_max_mem h x

lemma corrEntry_bounds (t1 t2 : String) :
    0 ≤ ((correlationMap t1 t2).getD 0.2 : ℝ) ∧ ((correlationMap t1 t2).getD 0.2 : ℝ) ≤ 0.7 := by
  unfold correlationMap
  split_ifs <;> norm_num

lemma foldl_mul_eq_prod (xs : List ℝ) (a : ℝ) : xs.foldl (· * ·) a = a * xs.prod := by
  induction xs generalizing a with
  | nil => simp
  | cons x xs ih => rw [List.foldl_cons, ih, List.prod_cons, mul_assoc]

lemma foldl_mul_nonneg {xs : List ℝ} {a : ℝ} (ha : 0 ≤ a) (h : ∀ x ∈ xs, 0 ≤ x) :
    0 ≤ xs.foldl (· * ·) a := by
  induction xs generalizing a with
  | nil => exact ha
  | cons x xs ih =>
    exact ih (mul_nonneg ha (h x (List.mem_cons_self _ _))) (fun y hy => h y (List.mem_cons_of_mem _ hy))

/-! ## Helper lemmas: `jsLog` / `jsExp` -/

lemma jsLog_mul {a x : ℝ} (ha : 0 ≤ a) (hx : 0 ≤ x) :
    jsLog a + jsLog x = jsLog (a * x) := by
  rcases eq_or_lt_of_le ha with h0 | hpos
  · have hA : jsLog a = ⊥ := if_pos (le_of_eq h0.symm)
    have hAX : jsLog (a * x) = ⊥ := if_pos (by rw [← h0, zero_mul])
    rw [hA, hAX, EReal.bot_add]
  · rcases eq_or_lt_of_le hx with h0x | hposx
    · have hX : jsLog x = ⊥ := if_pos (le_of_eq h0x.symm)
      have hAX : jsLog (a * x) = ⊥ := if_pos (by rw [← h0x, mul_zero])
      rw [hX, hAX, EReal.add_bot]
    · have hA : jsLog a = ((Real.log a : ℝ) : EReal) := if_neg (not_le.mpr hpos)
      have hX : jsLog x = ((Real.log x : ℝ) : EReal) := if_neg (not_le.mpr hposx)
      have hAX : jsLog (a * x) = ((Real.log (a * x) : ℝ) : EReal) :=
        if_neg (not_le.mpr (mul_pos hpos hposx))
      rw [hA, hX, hAX, ← EReal.coe_add, Real.log_mul (ne_of_gt hpos) (ne_of_gt hposx)]

lemma jsExp_jsLog {x : ℝ} (hx : 0 ≤ x) : jsExp (jsLog x) = x := by
  rcases eq_or_lt_of_le hx with h0 | hpos
  · rw [jsLog, if_pos (le_of_eq h0.symm), jsExp, if_pos rfl, h0]
  · rw [jsLog, if_neg (not_le.mpr hpos), jsExp, if_neg (EReal.coe_ne_bot _),
      EReal.toReal_coe, Real.exp_log hpos]

lemma foldl_jsLog (xs : List ℝ) (a : ℝ) (ha : 0 ≤ a) (h : ∀ x ∈ xs, 0 ≤ x) :
    xs.foldl (fun acc x => acc + jsLog x) (jsLog a) = jsLog (xs.foldl (· * ·) a) := by
  induction xs generalizing a with
  | nil => rfl
  | cons x xs ih =>
    rw [List.foldl_cons, jsLog_mul ha (h x (List.mem_cons_self _ _)), List.foldl_cons]
    exact ih (a * x) (mul_nonneg ha (h x (List.mem_cons_self _ _)))
      (fun y hy => h y (List.mem_cons_of_mem _ hy))

/-! ## The independence correction is the identity on its own matrix -/

lemma applyIndependenceCorrection_id (likelihoods : List (String × LikelihoodDistribution)) :
    applyIndependenceCorrection likelihoods
      (computeEvidenceCorrelationMatrix (likelihoods.map (fun p => p.1))) = likelihoods := by
  apply List.ext_getElem?
  intro k
  unfold applyIndependenceCorrection
  rw [List.getElem?_map, List.getElem?_enum]
  cases hk : likelihoods[k]? with
  | none => simp
  | some pr =>
    have hk' : k < likelihoods.length := by
      by_contra hlt
      rw [List.getElem?_eq_none (le_of_not_lt hlt)] at hk
      exact Option.noConfusion hk
    have hrow : (computeEvidenceCorrelationMatrix (likelihoods.map (fun p => p.1)))[k]? =
        some ((List.range (likelihoods.map (fun p => p.1)).length).map (fun j =>
          if k = j then (1 : ℝ)
          else (correlationMap ((likelihoods.map (fun p => p.1)).getD k "")
            ((likelihoods.map (fun p => p.1)).getD j "")).getD 0.2)) := by
      unfold computeEvidenceCorrelationMatrix
      rw [List.getElem?_map, List.getElem?_range (by simpa using hk')]
      simp
    have hmax : listMax ((((computeEvidenceCorrelationMatrix
        (likelihoods.map (fun p => p.1)))[k]?).getD []).map (fun v => |v|)) = 1 := by
      rw [hrow, Option.getD_some, List.map_map]
      apply listMax_eq_one
      · refine List.mem_map.mpr ⟨k, List.mem_range.mpr (by simpa using hk'), ?_⟩
        simp
      · intro x hx
        obtain ⟨j, _, rfl⟩ := List.mem_map.mp hx
        by_cases hkj : k = j
        · simp [hkj]
        · simp only [Function.comp_apply, if_neg hkj]
          rw [abs_of_nonneg (corrEntry_bounds _ _).1]
          exact le_trans (corrEntry_bounds _ _).2 (by norm_num)
    norm_num [hmax, Prod.mk.eta]

/-- Unfolding of the non-vetoed fusion branch with nonnegative means: the
exponentiated log-space numerator is exactly the prior-times-likelihoods
product `P`, so the whole posterior is expressed through `P`. -/
lemma computePosterior_passed_eq (prior : PriorDistribution)
    (likelihoods : List (String × LikelihoodDistribution)) (veto : FusionVetoResult)
    (hv : veto.passed = true) (hp : 0 ≤ prior.mean)
    (hl : ∀ p ∈ likelihoods, 0 ≤ p.2.mean) :
    computePosteriorWithUncertainty prior likelihoods veto =
      { mean := (prior.mean * (likelihoods.map (fun p => p.2.mean)).prod) /
          max (prior.mean * (likelihoods.map (fun p => p.2.mean)).prod) 0.001,
        variance := likelihoods.foldl
          (fun acc p => propagateProductUncertainty acc p.2.variance) prior.variance,
        confidence_class := classifyConfidence
          ((prior.mean * (likelihoods.map (fun p => p.2.mean)).prod) /
            max (prior.mean * (likelihoods.map (fun p => p.2.mean)).prod) 0.001)
          (likelihoods.foldl (fun acc p => propagateProductUncertainty acc p.2.variance)
            prior.variance),
        uncertainty_bounds := computeCredibleInterval
          ((prior.mean * (likelihoods.map (fun p => p.2.mean)).prod) /
            max (prior.mean * (likelihoods.map (fun p => p.2.mean)).prod) 0.001)
          (likelihoods.foldl (fun acc p => propagateProductUncertainty acc p.2.variance)
            prior.variance) 0.95,
        likelihood_contributions := likelihoods.map (fun p => (p.1, p.2.mean)),
        veto_reason := none,
        normalization_constant :=
          max (prior.mean * (likelihoods.map (fun p => p.2.mean)).prod) 0.001 } := by
  have hmeans : ∀ x ∈ likelihoods.map (fun p => p.2.mean), 0 ≤ x := by
    intro x hx
    obtain ⟨p, hp', rfl⟩ := List.mem_map.mp hx
    exact hl p hp'
  have hfold : likelihoods.foldl (fun acc p => acc + jsLog p.2.mean) (jsLog prior.mean) =
      jsLog ((likelihoods.map (fun p => p.2.mean)).foldl (· * ·) prior.mean) := by
    rw [← foldl_jsLog _ _ hp hmeans, List.foldl_map]
  have hexp : jsExp (likelihoods.foldl (fun acc p => acc + jsLog p.2.mean)
      (jsLog prior.mean)) = prior.mean * (likelihoods.map (fun p => p.2.mean)).prod := by
    rw [hfold, jsExp_jsLog (foldl_mul_nonneg hp hmeans), foldl_mul_eq_prod]
  have hZ : computeNormalizationConstant prior likelihoods =
      max (prior.mean * (likelihoods.map (fun p => p.2.mean)).prod) 0.001 := by
    unfold computeNormalizationConstant
    rw [show likelihoods.foldl (fun z p => z * p.2.mean) prior.mean =
      (likelihoods.map (fun p => p.2.mean)).foldl (· * ·) prior.mean from
        (List.foldl_map _ _ _ _).symm, foldl_mul_eq_prod]
  have hdiv : ∀ x : ℝ, x / max x 0.001 = x * (max x 0.001)⁻¹ := fun x => div_eq_mul_inv _ _
  unfold computePosteriorWithUncertainty
  rw [if_neg (by rw [hv]; exact fun h => Bool.noConfusion h)]
  simp only [applyIndependenceCorrection_id, hexp, hZ, div_eq_mul_inv]

/-- Claim C1: a failed veto short-circuits the fusion to the literal zero
posterior (mean 0, variance 0, NOISE, bounds [0,0], no contributions,
normalization constant 0, carrying the veto failure reason), independently
of the prior and the likelihoods. -/
theorem veto_forces_zero_posterior (prior : PriorDistribution)
    (likelihoods : List (String × LikelihoodDistribution)) (veto : FusionVetoResult)
    (hv : veto.passed = false) :
    computePosteriorWithUncertainty prior likelihoods veto =
      { mean := 0, variance := 0, confidence_class := .NOISE, uncertainty_bounds := (0, 0),
        likelihood_contributions := [], veto_reason := veto.failure_reason,
        normalization_constant := 0 } ∧
    ∀ (prior' : PriorDistribution) (likelihoods' : List (String × LikelihoodDistribution)),
      computePosteriorWithUncertainty prior' likelihoods' veto =
        computePosteriorWithUncertainty prior likelihoods veto := by
  constructor
  · unfold computePosteriorWithUncertainty
    rw [if_pos hv]
    norm_num
  · intro prior' likelihoods'
    unfold computePosteriorWithUncertainty
    rw [if_pos hv, if_pos hv]

/-- Witness for C1 at a concrete vetoed input with an extreme likelihood. -/
theorem veto_forces_zero_posterior_witness :
    computePosteriorWithUncertainty
        ⟨0.2, 0.01, (0, 1), 1, 1, 1, 1⟩
        [("chemical", ⟨1000000, 2, (0, 1), "chemical", none, none⟩)]
        ⟨false, 0, none, none, some "Basin unsealed or insufficient closure"⟩ =
      { mean := 0, variance := 0, confidence_class := .NOISE, uncertainty_bounds := (0, 0),
        likelihood_contributions := [],
        veto_reason := some "Basin unsealed or insufficient closure",
        normalization_constant := 0 } :=
  (veto_forces_zero_posterior _ _ _ rfl).1

/-- Claim C2: with the veto passed and strictly positive prior and
likelihood means, the posterior mean is `P / max P 0.001` for
`P = prior.mean * prod of likelihood means`, hence exactly 1 whenever
`P` is at least 0.001. -/
theorem posterior_mean_product_cancellation (prior : PriorDistribution)
    (likelihoods : List (String × LikelihoodDistribution)) (veto : FusionVetoResult)
    (hv : veto.passed = true) (hp : 0 < prior.mean)
    (hl : ∀ p ∈ likelihoods, 0 < p.2.mean) :
    (computePosteriorWithUncertainty prior likelihoods veto).mean =
      (prior.mean * (likelihoods.map (fun p => p.2.mean)).prod) /
        max (prior.mean * (likelihoods.map (fun p => p.2.mean)).prod) 0.001 ∧
    (0.001 ≤ prior.mean * (likelihoods.map (fun p => p.2.mean)).prod →
      (computePosteriorWithUncertainty prior likelihoods veto).mean = 1) := by
  have h := computePosterior_passed_eq prior likelihoods veto hv (le_of_lt hp)
    (fun p hp' => le_of_lt (hl p hp'))
  rw [h]
  refine ⟨by rw [div_eq_mul_inv], ?_⟩
  intro hP
  have hmax : max (prior.mean * (likelihoods.map (fun p => p.2.mean)).prod) 0.001 =
      prior.mean * (likelihoods.map (fun p => p.2.mean)).prod := max_eq_left hP
  have hne : prior.mean * (likelihoods.map (fun p => p.2.mean)).prod ≠ 0 := by
    intro h0
    rw [h0] at hP
    norm_num at hP
  show (prior.mean * (likelihoods.map (fun p => p.2.mean)).prod) *
      (max (prior.mean * (likelihoods.map (fun p => p.2.mean)).prod) 0.001)⁻¹ = 1
  rw [hmax, mul_inv_cancel₀ hne]

/-- Witness for C2: prior mean 0.2 with a single likelihood of mean 2
gives product 0.4 at least 0.001, so the posterior mean is exactly 1. -/
theorem posterior_mean_product_cancellation_witness :
    (computePosteriorWithUncertainty
        ⟨0.2, 0.01, (0, 1), 1, 1, 1, 1⟩
        [("chemical", ⟨2, 0.1, (0, 1), "chemical", none, none⟩)]
        ⟨true, 1, none, none, none⟩).mean = 1 :=
  (posterior_mean_product_cancellation
      ⟨0.2, 0.01, (0, 1), 1, 1, 1, 1⟩
      [("chemical", ⟨2, 0.1, (0, 1), "chemical", none, none⟩)]
      ⟨true, 1, none, none, none⟩ rfl (by norm_num)
      (by intro p hp; simp at hp; rw [hp]; norm_num)).2
    (by simp; norm_num)

/-- Claim C3: on a non-vetoed input with nonnegative means and variances
the posterior mean lies in [0,1] and the credible-interval endpoints lie
in [0,1] with lower at most upper. -/
theorem posterior_mean_and_bounds_in_unit_interval (prior : PriorDistribution)
    (likelihoods : List (String × LikelihoodDistribution)) (veto : FusionVetoResult)
    (hv : veto.passed = true) (hp : 0 ≤ prior.mean) (hpv : 0 ≤ prior.variance)
    (hl : ∀ p ∈ likelihoods, 0 ≤ p.2.mean ∧ 0 ≤ p.2.variance) :
    0 ≤ (computePosteriorWithUncertainty prior likelihoods veto).mean ∧
    (computePosteriorWithUncertainty prior likelihoods veto).mean ≤ 1 ∧
    0 ≤ (computePosteriorWithUncertainty prior likelihoods veto).uncertainty_bounds.1 ∧
    (computePosteriorWithUncertainty prior likelihoods veto).uncertainty_bounds.1 ≤ 1 ∧
    0 ≤ (computePosteriorWithUncertainty prior likelihoods veto).uncertainty_bounds.2 ∧
    (computePosteriorWithUncertainty prior likelihoods veto).uncertainty_bounds.2 ≤ 1 ∧
    (computePosteriorWithUncertainty prior likelihoods veto).uncertainty_bounds.1 ≤
      (computePosteriorWithUncertainty prior likelihoods veto).uncertainty_bounds.2 := by
  rw [computePosterior_passed_eq prior likelihoods veto hv hp (fun p hp' => (hl p hp').1)]
  set P := prior.mean * (likelihoods.map (fun p => p.2.mean)).prod with hPdef
  have hPnn : 0 ≤ P := by
    apply mul_nonneg hp
    apply List.prod_nonneg
    intro x hx
    obtain ⟨p, hp', rfl⟩ := List.mem_map.mp hx
    exact (hl p hp').1
  have hmaxpos : (0 : ℝ) < max P 0.001 := lt_of_lt_of_le (by norm_num) (le_max_right _ _)
  have hm0 : 0 ≤ P / max P 0.001 := div_nonneg hPnn (le_of_lt hmaxpos)
  have hm1 : P / max P 0.001 ≤ 1 := (div_le_one hmaxpos).mpr (le_max_left _ _)
  set m := P / max P 0.001
  set V := likelihoods.foldl (fun acc p => propagateProductUncertainty acc p.2.variance)
    prior.variance
  have hs : 0 ≤ getZScore 0.95 * Real.sqrt V := by
    apply mul_nonneg _ (Real.sqrt_nonneg _)
    unfold getZScore
    split_ifs <;> norm_num
  unfold computeCredibleInterval
  refine ⟨hm0, hm1, le_max_left _ _, ?_, ?_, min_le_left _ _, ?_⟩
  · exact max_le (by norm_num) (by linarith)
  · exact le_min (by norm_num) (by linarith)
  · exact max_le (le_min (by norm_num) (by linarith)) (le_min (by linarith) (by linarith))

/-- Witness for C3 at a concrete non-vetoed input. -/
theorem posterior_mean_and_bounds_in_unit_interval_witness :
    0 ≤ (computePosteriorWithUncertainty ⟨0.25, 0.02, (0, 1), 1, 1, 1, 1⟩
        [("chemical", ⟨1.5, 0.1, (0, 1), "chemical", none, none⟩),
         ("physical", ⟨0.5, 0.2, (0, 1), "physical", none, none⟩)]
        ⟨true, 1, none, none, none⟩).mean ∧
    (computePosteriorWithUncertainty ⟨0.25, 0.02, (0, 1), 1, 1, 1, 1⟩
        [("chemical", ⟨1.5, 0.1, (0, 1), "chemical", none, none⟩),
         ("physical", ⟨0.5, 0.2, (0, 1), "physical", none, none⟩)]
        ⟨true, 1, none, none, none⟩).mean ≤ 1 ∧
    0 ≤ (computePosteriorWithUncertainty ⟨0.25, 0.02, (0, 1), 1, 1, 1, 1⟩
        [("chemical", ⟨1.5, 0.1, (0, 1), "chemical", none, none⟩),
         ("physical", ⟨0.5, 0.2, (0, 1), "physical", none, none⟩)]
        ⟨true, 1, none, none, none⟩).uncertainty_bounds.1 ∧
    (computePosteriorWithUncertainty ⟨0.25, 0.02, (0, 1), 1, 1, 1, 1⟩
        [("chemical", ⟨1.5, 0.1, (0, 1), "chemical", none, none⟩),
         ("physical", ⟨0.5, 0.2, (0, 1), "physical", none, none⟩)]
        ⟨true, 1, none, none, none⟩).uncertainty_bounds.1 ≤ 1 ∧
    0 ≤ (computePosteriorWithUncertainty ⟨0.25, 0.02, (0, 1), 1, 1, 1, 1⟩
        [("chemical", ⟨1.5, 0.1, (0, 1), "chemical", none, none⟩),
         ("physical", ⟨0.5, 0.2, (0, 1), "physical", none, none⟩)]
        ⟨true, 1, none, none, none⟩).uncertainty_bounds.2 ∧
    (computePosteriorWithUncertainty ⟨0.25, 0.02, (0, 1), 1, 1, 1, 1⟩
        [("chemical", ⟨1.5, 0.1, (0, 1), "chemical", none, none⟩),
         ("physical", ⟨0.5, 0.2, (0, 1), "physical", none, none⟩)]
        ⟨true, 1, none, none, none⟩).uncertainty_bounds.2 ≤ 1 ∧
    (computePosteriorWithUncertainty ⟨0.25, 0.02, (0, 1), 1, 1, 1, 1⟩
        [("chemical", ⟨1.5, 0.1, (0, 1), "chemical", none, none⟩),
         ("physical", ⟨0.5, 0.2, (0, 1), "physical", none, none⟩)]
        ⟨true, 1, none, none, none⟩).uncertainty_bounds.1 ≤
      (computePosteriorWithUncertainty ⟨0.25, 0.02, (0, 1), 1, 1, 1, 1⟩
        [("chemical", ⟨1.5, 0.1, (0, 1), "chemical", none, none⟩),
         ("physical", ⟨0.5, 0.2, (0, 1), "physical", none, none⟩)]
        ⟨true, 1, none, none, none⟩).uncertainty_bounds.2 :=
  posterior_mean_and_bounds_in_unit_interval _ _ _ rfl (by norm_num) (by norm_num)
    (by intro p hp; simp at hp; rcases hp with h | h <;> rw [h] <;> norm_num)

/-- Claim C5: on the correlation matrix computed from its own evidence
types, the independence correction is the identity — the max-of-row minus
1 value is always 0 (diagonal 1, off-diagonal at most 0.7), so the
penalty branch is unreachable and no likelihood is modified. -/
theorem independence_correction_is_identity
    (likelihoods : List (String × LikelihoodDistribution)) :
    applyIndependenceCorrection likelihoods
      (computeEvidenceCorrelationMatrix (likelihoods.map (fun p => p.1))) = likelihoods :=
  applyIndependenceCorrection_id likelihoods

/-! ## Claims C4 and C10: veto engine behaviour -/

/-- A concrete copper-porphyry target whose stratigraphy fails
`no_reservoir_unit` (no reservoir unit, deep-marine facies) and whose
structure fails `basin_unsealed` (unsealed basin, 5 m closure). -/
def exFailTarget : Target :=
  { id := "t1", commodity := "copper_porphyry",
    location := { longitude := 0, latitude := 0 },
    geological_context :=
      { tectonic_setting := "arc", age := "45 Ma",
        stratigraphy :=
          { reservoir_unit := none, seal_unit := none, facies := "deep_marine",
            thickness := 100 },
        structure_info :=
          { trap_type := none, closure := 5, fault_seal := none, basin_seal := some false },
        preservation :=
          { uplift_level := "low", erosion_level := "minimal",
            metamorphic_grade := "greenschist", weathering := "minimal" } },
    evidence := { chemical := [], structural := [], physical := [], seismic := [] } }

/-- Claim C4: when `no_reservoir_unit` is a blocking failure (negative
check with certainty at or above its required confidence 0.8) and
`basin_unsealed` is also a blocking failure, `evaluateVeto` fails with
category `stratigraphic` and condition `no_reservoir_unit`, and the audit
trail holds exactly the one stratigraphic category result — in particular
no structural-category results. -/
theorem veto_short_circuits_at_stratigraphic (t : Target)
    (h1 : (checkNoReservoirUnit t).passed = false)
    (h2 : (0.8 : ℚ) ≤ (checkNoReservoirUnit t).certainty)
    (h3 : (checkBasinUnsealed t).passed = false)
    (h4 : (0.8 : ℚ) ≤ (checkBasinUnsealed t).certainty) :
    (evaluateVeto t).passed = false ∧
    (evaluateVeto t).failure_category = some "stratigraphic" ∧
    (evaluateVeto t).failure_condition = some "no_reservoir_unit" ∧
    (evaluateVeto t).audit_trail =
      [evaluateCategory "stratigraphic"
        ["no_reservoir_unit", "wrong_facies", "missing_seal", "eroded_sequence",
         "incompatible_depositional_environment"] t] ∧
    (evaluateVeto t).audit_trail.length = 1 := by
  have hfind : vetoConditions.find? (fun c => c.name == "no_reservoir_unit") =
      some ⟨"no_reservoir_unit", "stratigraphic",
        "No viable reservoir unit present in stratigraphic column",
        checkNoReservoirUnit, "critical", 0.8⟩ := rfl
  have hcat : evaluateConditions t
      ["no_reservoir_unit", "wrong_facies", "missing_seal", "eroded_sequence",
       "incompatible_depositional_environment"] =
      { passed := false, failed_condition := some "no_reservoir_unit",
        failure_reason := some (checkNoReservoirUnit t).details,
        all_results := [{ checkNoReservoirUnit t with
          evidence := getEvidenceForCondition "no_reservoir_unit" t }] } := by
    rw [evaluateConditions, hfind]
    exact if_pos ⟨h1, h2⟩
  refine ⟨?_, ?_, ?_, ?_, ?_⟩ <;>
    simp [evaluateVeto, vetoTaxonomy, evalVetoLoop, evaluateCategory, hcat]

/-- Witness for C4 at the concrete failing target. -/
theorem veto_short_circuits_at_stratigraphic_witness :
    (evaluateVeto exFailTarget).passed = false ∧
    (evaluateVeto exFailTarget).failure_category = some "stratigraphic" ∧
    (evaluateVeto exFailTarget).failure_condition = some "no_reservoir_unit" ∧
    (evaluateVeto exFailTarget).audit_trail.length = 1 := by
  have h := veto_short_circuits_at_stratigraphic exFailTarget (by decide)
    (by norm_num [checkNoReservoirUnit]) (by decide) (by norm_num [checkBasinUnsealed])
  exact ⟨h.1, h.2.1, h.2.2.1, h.2.2.2.2⟩

/-- Claim C10: `checkSpecificCondition` errors exactly on names outside
the condition registry; any registered name yields that condition's check
result (with the evidence list attached) without raising. -/
theorem unknown_condition_raises (conditionName : String) (t : Target) :
    ((∃ e, checkSpecificCondition conditionName t = Except.error e) ↔
      conditionName ∉ vetoConditions.map (fun c => c.name)) ∧
    (∀ c, vetoConditions.find? (fun c' => c'.name == conditionName) = some c →
      checkSpecificCondition conditionName t =
        Except.ok { c.check t with
          evidence := getEvidenceForCondition conditionName t }) := by
  constructor
  · constructor
    · rintro ⟨e, he⟩ hmem
      cases hf : vetoConditions.find? (fun c => c.name == conditionName) with
      | none =>
        rw [List.find?_eq_none] at hf
        obtain ⟨c, hc, hcname⟩ := List.mem_map.mp hmem
        exact hf c hc (by simp [hcname])
      | some c =>
        rw [checkSpecificCondition, hf] at he
        exact Except.noConfusion he
    · intro hmem
      cases hf : vetoConditions.find? (fun c => c.name == conditionName) with
      | none =>
        exact ⟨"Veto condition " ++ conditionName ++ " not found",
          by rw [checkSpecificCondition, hf]⟩
      | some c =>
        exact absurd (List.mem_map.mpr ⟨c, List.mem_of_find?_eq_some hf,
          by simpa using List.find?_some hf⟩) hmem
  · intro c hf
    rw [checkSpecificCondition, hf]

/-- Witness for C10: the registered name `basin_unsealed` returns its
check result on the concrete target. -/
theorem unknown_condition_raises_witness :
    checkSpecificCondition "basin_unsealed" exFailTarget =
      Except.ok { checkBasinUnsealed exFailTarget with
        evidence := getEvidenceForCondition "basin_unsealed" exFailTarget } :=
  (unknown_condition_raises "basin_unsealed" exFailTarget).2
    ⟨"basin_unsealed", "structural", "Structural basin is not sealed",
      checkBasinUnsealed, "critical", 0.8⟩ rfl

/-! ## Claim C6: determinism / purity -/

/-- Every registered veto check reads the target only through its
commodity and geological context. -/
lemma vetoChecks_read_only_context (t t' : Target) (h1 : t.commodity = t'.commodity)
    (h2 : t.geological_context = t'.geological_context) :
    ∀ c ∈ vetoConditions, c.check t = c.check t' := by
  intro c hc
  simp only [vetoConditions, List.mem_cons, List.not_mem_nil, or_false] at hc
  rcases hc with rfl | rfl | rfl | rfl | rfl | rfl | rfl | rfl | rfl | rfl | rfl | rfl | rfl | rfl | rfl <;>
    simp only [checkNoReservoirUnit, checkWrongFacies, checkMissingSeal, checkErodedSequence,
      checkTimingMismatch, checkChargeAfterTrap, checkAgeIncompatible, checkBasinUnsealed,
      checkFaultBreach, checkNoClosure, checkTrapDestroyed, checkUpliftedEroded,
      checkMetamorphosed, checkWeatheredDestroyed, checkThermallyOvermature, h1, h2]

/-- `evaluateConditions` is invariant under targets agreeing on commodity
and geological context. -/
lemma evaluateConditions_congr (t t' : Target) (h1 : t.commodity = t'.commodity)
    (h2 : t.geological_context = t'.geological_context) (names : List String) :
    evaluateConditions t names = evaluateConditions t' names := by
  induction names with
  | nil => rfl
  | cons name rest ih =>
    rw [evaluateConditions, evaluateConditions]
    cases hf : vetoConditions.find? (fun c => c.name == name) with
    | none => exact ih
    | some c =>
      simp only
      rw [vetoChecks_read_only_context t t' h1 h2 c (List.mem_of_find?_eq_some hf), ih,
        show getEvidenceForCondition name t = getEvidenceForCondition name t' from rfl]

/-- `evalVetoLoop` is invariant under targets agreeing on commodity and
geological context. -/
lemma evalVetoLoop_congr (t t' : Target) (h1 : t.commodity = t'.commodity)
    (h2 : t.geological_context = t'.geological_context) :
    ∀ (cats : List (String × List String)) (audit : List CategoryResult) (tot pass fail : ℕ),
      evalVetoLoop t audit tot pass fail cats = evalVetoLoop t' audit tot pass fail cats := by
  intro cats
  induction cats with
  | nil => intro audit tot pass fail; rfl
  | cons x rest ih =>
    intro audit tot pass fail
    obtain ⟨cat, names⟩ := x
    rw [evalVetoLoop, evalVetoLoop]
    simp only [evaluateCategory]
    rw [evaluateConditions_congr t t' h1 h2 names]
    by_cases hcr : (evaluateConditions t' names).passed = false
    · rw [if_pos hcr, if_pos hcr]
    · rw [if_neg hcr, if_neg hcr, ih]

/-- Counterexample for claim C6 as stated: `checkGeochemicalAnomaly` is
not a function of its evidence input — two invocations with the same
evidence but different ambient `Math.random()` draws return different
supportive-evidence values. -/
theorem geochemical_scorer_not_deterministic :
    checkGeochemicalAnomaly (fun _ => 0.9) () ≠ checkGeochemicalAnomaly (fun _ => 0.1) () := by
  intro h
  have hs := congrArg SupportiveEvidence.strength h
  simp only [checkGeochemicalAnomaly] at hs
  norm_num at hs

/-- Claim C6 as amended: the veto evaluation is a pure function of the
target (it depends only on commodity and geological context), while the
cited mock scorers — `checkGeochemicalAnomaly`, `applyNFINDR`,
`assessSpectralQuality` — consume the ambient random stream, so identical
declared inputs can produce different results. -/
theorem core_determinism_amended :
    (∀ t t' : Target, t.commodity = t'.commodity →
      t.geological_context = t'.geological_context → evaluateVeto t = evaluateVeto t') ∧
    (∃ r r' : ℕ → ℚ, checkGeochemicalAnomaly r () ≠ checkGeochemicalAnomaly r' ()) ∧
    (∃ r r' : ℕ → ℚ,
      applyNFINDR r [] [("K-feldspar", [])] ≠ applyNFINDR r' [] [("K-feldspar", [])]) ∧
    (∃ r r' : ℕ → ℚ,
      assessSpectralQuality r ([] : List Unit) ≠ assessSpectralQuality r' ([] : List Unit)) := by
  refine ⟨?_, ?_, ?_, ?_⟩
  · intro t t' h1 h2
    exact evalVetoLoop_congr t t' h1 h2 vetoTaxonomy [] 0 0 0
  · refine ⟨fun _ => 0.9, fun _ => 0.1, fun h => ?_⟩
    have hs := congrArg SupportiveEvidence.strength h
    simp only [checkGeochemicalAnomaly] at hs
    norm_num at hs
  · refine ⟨fun _ => 0.9, fun _ => 0.1, fun h => ?_⟩
    have hs := congrArg SpectralUnmixingResult.rmse h
    simp only [applyNFINDR] at hs
    norm_num at hs
  · refine ⟨fun _ => 0.9, fun _ => 0.1, fun h => ?_⟩
    have hs := congrArg SpectralQuality.signal_to_noise h
    simp only [assessSpectralQuality] at hs
    norm_num at hs

/-- Witness for the amended C6: two targets identical except for their id
get identical veto results. -/
theorem core_determinism_amended_witness :
    evaluateVeto exFailTarget = evaluateVeto { exFailTarget with id := "t2" } :=
  core_determinism_amended.1 exFailTarget { exFailTarget with id := "t2" } rfl rfl

/-! ## Claim C7: playbook assessment thresholds -/

/-- Claim C7: with all mandatory conditions passed and no kill factor
triggered, the overall assessment is favorable iff the retained
supportive strength total exceeds 2 with at least 2 strong items
(strength above 0.7), marginal iff (otherwise) the total exceeds 1 with
at least 1 strong item, and unfavorable otherwise. -/
theorem playbook_assessment_thresholds (m : MandatoryResult) (k : KillFactorResult)
    (supportive : List SupportiveEvidence) (hm : m.all_passed = true)
    (hk : k.killed = false) :
    (generateOverallAssessment m k supportive = .favorable ↔
      2 < supportive.foldl (fun sum s => sum + s.strength) (0 : ℚ) ∧
      2 ≤ (supportive.filter (fun s => decide ((0.7 : ℚ) < s.strength))).length) ∧
    (generateOverallAssessment m k supportive = .marginal ↔
      (¬(2 < supportive.foldl (fun sum s => sum + s.strength) (0 : ℚ) ∧
        2 ≤ (supportive.filter (fun s => decide ((0.7 : ℚ) < s.strength))).length) ∧
       (1 < supportive.foldl (fun sum s => sum + s.strength) (0 : ℚ) ∧
        1 ≤ (supportive.filter (fun s => decide ((0.7 : ℚ) < s.strength))).length))) ∧
    (generateOverallAssessment m k supportive = .unfavorable ↔
      (¬(2 < supportive.foldl (fun sum s => sum + s.strength) (0 : ℚ) ∧
        2 ≤ (supportive.filter (fun s => decide ((0.7 : ℚ) < s.strength))).length) ∧
       ¬(1 < supportive.foldl (fun sum s => sum + s.strength) (0 : ℚ) ∧
        1 ≤ (supportive.filter (fun s => decide ((0.7 : ℚ) < s.strength))).length))) := by
  unfold generateOverallAssessment
  rw [if_neg (by simp [hm, hk])]
  dsimp only
  split_ifs with hfav hmarg <;> refine ⟨?_, ?_, ?_⟩ <;> simp_all

/-- Witness for C7: three retained supportive items of strength 0.8
(total 2.4, strong count 3) classify as favorable through the whole
retain-and-sort pipeline. -/
theorem playbook_assessment_thresholds_witness :
    generateOverallAssessment ⟨true, none, none, false⟩ ⟨false, [], false⟩
      (evaluateSupportiveEvidence
        [("magnetic_destruction", fun _ => ⟨"magnetic_destruction", 0.8, "d1", []⟩),
         ("density_contrasts", fun _ => ⟨"density_contrasts", 0.8, "d2", []⟩),
         ("alteration_zoning", fun _ => ⟨"alteration_zoning", 0.8, "d3", []⟩)] ()) =
      .favorable := by
  refine (playbook_assessment_thresholds _ _ _ rfl rfl).1.mpr ?_
  norm_num [evaluateSupportiveEvidence, List.filter, List.mergeSort, List.foldl]

/-! ## Claim C8: chemical likelihood formula and range -/

/-- The conditional fold of `computeMineralLikelihood` over a list of
diagnostic detections is the plain product of the floored terms. -/
lemma chem_fold_eq_prod (diag : List String) (detections : List MineralDetection) (a : ℚ)
    (h : ∀ d ∈ detections, d.mineral_id ∈ diag) :
    detections.foldl
      (fun acc d =>
        if diag.contains d.mineral_id then acc * max 0.1 (d.abundance * d.confidence)
        else acc) a =
    a * (detections.map (fun d => max 0.1 (d.abundance * d.confidence))).prod := by
  induction detections generalizing a with
  | nil => simp
  | cons d ds ih =>
    rw [List.foldl_cons, if_pos (by
      simpa [List.elem_iff] using h d (List.mem_cons_self _ _)),
      ih _ (fun x hx => h x (List.mem_cons_of_mem _ hx)), List.map_cons, List.prod_cons,
      mul_assoc]

/-- Claim C8: over any list of diagnostic-mineral detections the chemical
likelihood equals the floored product times `1 + detected/expected`,
capped at 5, is exactly 0.1 with no detections, and always lies in
(0, 5]. -/
theorem chemical_likelihood_formula (commodity : String)
    (detections : List MineralDetection)
    (h : ∀ d ∈ detections, d.mineral_id ∈ DIAGNOSTIC_MINERALS commodity) :
    computeMineralLikelihood detections commodity =
      (if detections = [] then 0.1 else
        min 5 ((detections.map (fun d => max 0.1 (d.abundance * d.confidence))).prod *
          (1 + (detections.length : ℚ) /
            ((DIAGNOSTIC_MINERALS commodity).length : ℚ)))) ∧
    0 < computeMineralLikelihood detections commodity ∧
    computeMineralLikelihood detections commodity ≤ 5 := by
  have hprodpos : 0 < (detections.map (fun d => max 0.1 (d.abundance * d.confidence))).prod := by
    apply List.prod_pos
    intro x hx
    obtain ⟨d, _, rfl⟩ := List.mem_map.mp hx
    exact lt_of_lt_of_le (by norm_num) (le_max_left _ _)
  have hfilter : detections.filter
      (fun d => (DIAGNOSTIC_MINERALS commodity).contains d.mineral_id) = detections :=
    List.filter_eq_self.mpr (fun d hd => by simpa [List.elem_iff] using h d hd)
  have hcov : 0 ≤ (detections.length : ℚ) / ((DIAGNOSTIC_MINERALS commodity).length : ℚ) :=
    div_nonneg (by positivity) (by positivity)
  unfold computeMineralLikelihood
  by_cases hempty : detections = []
  · rw [if_pos hempty, if_pos hempty]
    norm_num
  · rw [if_neg hempty, if_neg hempty,
      chem_fold_eq_prod (DIAGNOSTIC_MINERALS commodity) detections 1 h, one_mul, hfilter]
    have hbody : 0 <
        (detections.map (fun d => max 0.1 (d.abundance * d.confidence))).prod *
          (1 + (detections.length : ℚ) / ((DIAGNOSTIC_MINERALS commodity).length : ℚ)) := by
      apply mul_pos hprodpos
      linarith
    exact ⟨rfl, lt_min (by norm_num) hbody, min_le_left _ _⟩

/-- Witness for C8: a single biotite detection (abundance 0.3, confidence
0.5) for copper porphyry. -/
theorem chemical_likelihood_formula_witness :
    0 < computeMineralLikelihood
        [{ mineral_id := "biotite", abundance := 0.3, confidence := 0.5,
           spectral_fit_rmse := 0.01 }] "copper_porphyry" ∧
    computeMineralLikelihood
        [{ mineral_id := "biotite", abundance := 0.3, confidence := 0.5,
           spectral_fit_rmse := 0.01 }] "copper_porphyry" ≤ 5 :=
  (chemical_likelihood_formula "copper_porphyry"
    [{ mineral_id := "biotite", abundance := 0.3, confidence := 0.5,
       spectral_fit_rmse := 0.01 }]
    (by intro d hd; simp at hd; rw [hd]; simp [DIAGNOSTIC_MINERALS])).2

/-! ## Claim C9: collapse strength -/

open scoped Classical in
/-- The collapse-strength formula of claim C9 as amended (written from
the amended claim's words): over the supportive likelihoods (those
strictly above 1.0), paired in order with the first k entries of the
uncertainty vector, each supportive likelihood is multiplied by its
normalized inverse-uncertainty weight `w_i / W`; the k-th root of the
product of these scaled values is divided by `max(priorMean, 0.001)` and
capped at 10; the strength is 0 when no likelihood is supportive. -/
noncomputable def amendedCollapseStrength (prior : ℝ) (likelihoods uncertainties : List ℝ) :
    ℝ :=
  let supportive := likelihoods.filter (fun L => decide (1 < L))
  if supportive = [] then 0
  else
    let weights := (uncertainties.take supportive.length).map (fun u => 1.0 / (u + 0.001))
    let W := weights.sum
    min 10
      ((((supportive.zip weights).map (fun p => p.1 * (p.2 / W))).prod ^
          ((1 : ℝ) / ((supportive.zip weights).length))) / max prior 0.001)

/-- Counterexample for claim C9 as stated: at prior 1 with likelihoods
[2, 2] and uncertainties [0.999, 0.999] the detector reports strength 1,
while the weighted geometric mean of the supportive likelihoods per the
claim gives 2 — the code multiplies each likelihood by its normalized
weight instead of raising it to that weight. -/
theorem collapse_strength_counterexample :
    (detectCollapse 1 [2, 2] [0.999, 0.999]).collapse_strength = 1 ∧
    specCollapseStrength 1 [2, 2] [0.999, 0.999] = 2 ∧
    (detectCollapse 1 [2, 2] [0.999, 0.999]).collapse_strength ≠
      specCollapseStrength 1 [2, 2] [0.999, 0.999] := by
  have hfilt : [(2 : ℝ), 2].filter (fun L => decide (1 < L)) = [2, 2] :=
    List.filter_eq_self.mpr (fun a ha => decide_eq_true (by
      rcases List.mem_cons.mp ha with rfl | ha'
      · norm_num
      · rcases List.mem_cons.mp ha' with rfl | h'
        · norm_num
        · simp at h'))
  have hcode : computeCollapseStrength 1 [2, 2] [0.999, 0.999] = 1 := by
    unfold computeCollapseStrength
    rw [hfilt, if_neg (by simp)]
    dsimp only [List.length_cons, List.length_nil, List.take, List.map, List.zip,
      List.zipWith, List.foldl, List.sum_cons, List.sum_nil]
    norm_num [Real.one_rpow]
  have hspec : specCollapseStrength 1 [2, 2] [0.999, 0.999] = 2 := by
    unfold specCollapseStrength
    rw [hfilt, if_neg (by simp)]
    dsimp only [List.length_cons, List.length_nil, List.take, List.map, List.zip,
      List.zipWith, List.prod_cons, List.prod_nil, List.sum_cons, List.sum_nil]
    norm_num
    rw [show (2 : ℝ) ^ ((1 : ℝ) / 2) * (2 : ℝ) ^ ((1 : ℝ) / 2) =
        2 ^ ((1 : ℝ) / 2 + (1 : ℝ) / 2) from (Real.rpow_add (by norm_num) _ _).symm]
    norm_num
  have hproj : (detectCollapse 1 [2, 2] [0.999, 0.999]).collapse_strength =
      computeCollapseStrength 1 [2, 2] [0.999, 0.999] := rfl
  refine ⟨by rw [hproj, hcode], hspec, by rw [hproj, hcode, hspec]; norm_num⟩

/-- Claim C9 as amended: the collapse strength reported by
`detectCollapse` equals the capped, prior-normalized k-th root of the
product of the supportive likelihoods each multiplied by its normalized
inverse-uncertainty weight (weights from the first k uncertainties), and
is 0 when no likelihood is supportive. -/
theorem collapse_strength_formula_amended (prior : ℝ) (likelihoods uncertainties : List ℝ) :
    (detectCollapse prior likelihoods uncertainties).collapse_strength =
      amendedCollapseStrength prior likelihoods uncertainties ∧
    (likelihoods.filter (fun L => decide (1 < L)) = [] →
      (detectCollapse prior likelihoods uncertainties).collapse_strength = 0) := by
  have hproj : (detectCollapse prior likelihoods uncertainties).collapse_strength =
      computeCollapseStrength prior likelihoods uncertainties := rfl
  constructor
  · rw [hproj]
    unfold computeCollapseStrength amendedCollapseStrength
    by_cases hsup : likelihoods.filter (fun L => decide (1 < L)) = []
    · rw [if_pos hsup, if_pos hsup]
    · rw [if_neg hsup, if_neg hsup]
      dsimp only
      rw [foldl_mul_eq_prod, one_mul, List.length_map]
  · intro hsup
    rw [hproj]
    unfold computeCollapseStrength
    rw [if_pos hsup]

/-- Witness for the amended C9: with no supportive likelihood the
reported strength is 0. -/
theorem collapse_strength_formula_amended_witness :
    (detectCollapse 1 [0.5, 0.5] [0.1, 0.1]).collapse_strength = 0 :=
  (collapse_strength_formula_amended 1 [0.5, 0.5] [0.1, 0.1]).2 (by
    rw [List.filter_eq_nil_iff]
    intro a ha
    rcases List.mem_cons.mp ha with rfl | ha'
    · simp only [decide_eq_true_eq]
      norm_num
    · rcases List.mem_cons.mp ha' with rfl | h'
      · simp only [decide_eq_true_eq]
        norm_num
      · simp at h')

end Aurora
